import Mathlib

/-!
Shallow embedding of the snip-detection correlation engine of Snipping-Lens.

Two implementations live in the repository:
* `snipping_lens.py` — the cross-platform engine: a process watcher stamping
  `last_snip_process_seen_time`, a clipboard poller (`monitor_clipboard`) with
  hash-based change detection and a timing-window acceptance test, and the
  delivery path `process_screenshot` / `get_google_lens_url`.
* `src/bin/win/src/tray_watchdog.py` — the Windows watchdog: an edge-triggered
  clipboard check on snipping-tool close (`clipboard_monitor_loop`), a
  settings-file trigger token, a three-state `tray_status` mode, and a
  Litterbox upload.

Pure data is modelled directly; each loop body becomes an explicit step
function on a state record, with the per-iteration platform inputs (process
sighting, clipboard content, HTTP response) passed as parameters.
-/

/-- Whitespace test used by Python's `str.strip()` (ASCII whitespace suffices
for the bodies handled here). -/
def isPySpace (c : Char) : Bool :=
  c = ' ' || c = '\t' || c = '\n' || c = '\r' || c = '\x0b' || c = '\x0c'

/-- Model of Python `str.strip()`: drop leading and trailing whitespace. -/
def pyStrip (s : String) : String :=
  ⟨(((s.data.dropWhile isPySpace).reverse.dropWhile isPySpace).reverse)⟩

/-- Model of Python `str.startswith(pre)`. -/
def strStartsWith (s pre : String) : Bool :=
  pre.data.isPrefixOf s.data

/-- An HTTP response as seen by the `requests` calls: a status code and a
text body. A `none` at the call sites stands for a raised exception
(timeout or other network error). -/
structure HttpResponse where
  status : Nat
  body : String
deriving DecidableEq

/-- The Lens search URL built by both delivery paths
(`snipping_lens.py` line 225 and `tray_watchdog.py` lines 255-257): plain
f-string interpolation of the hosted link after `?url=`. -/
def lens_url (link : String) : String :=
  "https://lens.google.com/uploadbyurl?url=" ++ link

/-- Embedding of `SnippingLens.get_google_lens_url` (snipping_lens.py lines
211-240), abstracted over the HTTP response of the single Catbox POST.
`resp = none` models a raised `Timeout`/`RequestException` (caught, returns
`None`). `response.raise_for_status()` raises for 4xx/5xx, caught by the
`RequestException` handler (returns `None`); otherwise success requires
status 200 and a stripped body starting with the Catbox file prefix. -/
def get_google_lens_url (resp : Option HttpResponse) : Option String :=
  match resp with
  | Option.none => Option.none
  | Option.some r =>
    if 400 ≤ r.status && r.status < 600 then
      Option.none
    else
      let catbox_link := pyStrip r.body
      if r.status == 200 && strStartsWith catbox_link "https://files.catbox.moe/" then
        Option.some (lens_url catbox_link)
      else
        Option.none

/-- `SNIP_PROCESS_TIMEOUT_SECONDS = 5.0` (snipping_lens.py line 52). -/
def SNIP_PROCESS_TIMEOUT_SECONDS : ℚ := 5

/-- The timing-window test of `monitor_clipboard` (snipping_lens.py line 427):
`0 < time_since_process_seen <= SNIP_PROCESS_TIMEOUT_SECONDS`. -/
def should_process (time_since_process_seen : ℚ) : Bool :=
  decide (0 < time_since_process_seen) &&
    decide (time_since_process_seen ≤ SNIP_PROCESS_TIMEOUT_SECONDS)

/-- The engine state shared by the two watcher threads of `snipping_lens.py`:
`last_clipboard_hash`, `last_snip_process_seen_time`, `is_paused`,
`is_running` (lines 67-71). Hash values are Python `hash` results (integers);
`none` is Python `None`. -/
structure EngineState where
  last_clipboard_hash : Option Int
  last_snip_process_seen_time : ℚ
  is_paused : Bool
  is_running : Bool
deriving DecidableEq

/-- Outcome of one clipboard query in `monitor_clipboard`:
no image on the clipboard (also: a file list with no valid image file),
a clipboard-access error (the `except` handlers, lines 454-473), or an image
whose computed hash is `h` (`h = none` when `get_image_hash` failed). -/
inductive ClipboardPoll
  | noImage
  | pollError
  | image (h : Option Int)
deriving DecidableEq

/-- One iteration of the `monitor_clipboard` loop body (snipping_lens.py
lines 355-475) as a state transformer. `now` is `time.time()` at the moment
the timing window is checked; the returned `Bool` is whether the iteration
started a `process_screenshot` delivery thread. The paused branch (lines
356-362) touches no engine state; the no-image and error branches reset only
`last_clipboard_hash` (lines 382-386, 454-473, each guarded by
`is not None`); a change event updates `last_clipboard_hash` whether the
timing test accepted or rejected it (lines 441-446). -/
def monitor_clipboard_iter (st : EngineState) (poll : ClipboardPoll) (now : ℚ) :
    EngineState × Bool :=
  if st.is_paused then
    (st, false)
  else
    match poll with
    | ClipboardPoll.noImage =>
      (if st.last_clipboard_hash.isSome then
        { st with last_clipboard_hash := Option.none }
      else st, false)
    | ClipboardPoll.pollError =>
      (if st.last_clipboard_hash.isSome then
        { st with last_clipboard_hash := Option.none }
      else st, false)
    | ClipboardPoll.image h =>
      let is_new_content :=
        (h != st.last_clipboard_hash) ||
          (h == Option.none && st.last_clipboard_hash != Option.none)
      if is_new_content then
        let time_since_process_seen := now - st.last_snip_process_seen_time
        let should := should_process time_since_process_seen
        ({ st with last_clipboard_hash := h }, should)
      else
        (st, false)

/-- The image handed to `process_screenshot`: an in-memory PIL image (whose
pixel bytes we abstract), or a file path. -/
inductive ScreenshotSource
  | pilImage (bytes : List Nat)
  | filePath (p : String)
deriving DecidableEq

/-- Embedding of `SnippingLens.process_screenshot` (snipping_lens.py lines
483-538). The filesystem is the list of existing paths `fs`; `tempName` is
the fresh name `NamedTemporaryFile` would create; `save_ok` is whether
`img_to_save.save` succeeds; `resp` is the HTTP response of the single upload
inside `get_google_lens_url`. Returns the final filesystem, the URL passed to
`webbrowser.open_new_tab` (if any), and the number of upload attempts made.
The `finally` block deletes `pil_temp_file_path` when it was set, and deletes
`final_image_path` only when `is_temp_xclip_file` held and it still exists;
a directly supplied path with `is_temp_xclip_file = false` is never removed. -/
def process_screenshot (src : ScreenshotSource) (is_temp_xclip_file : Bool)
    (tempName : String) (save_ok : Bool) (resp : Option HttpResponse)
    (fs : List String) : List String × Option String × Nat :=
  match src with
  | ScreenshotSource.pilImage _ =>
    -- NamedTemporaryFile(delete=False) creates the file on disk
    let fs1 := tempName :: fs
    if save_ok then
      -- pil_temp_file_path := tempName; final_image_path := tempName
      let search_url := get_google_lens_url resp
      -- finally: unlink pil_temp_file_path (it exists in fs1);
      -- the xclip branch does not fire (final_image_path is not the source string)
      let fs2 := fs1.erase tempName
      (fs2, search_url, 1)
    else
      -- save raised before pil_temp_file_path was assigned: early return,
      -- finally deletes nothing
      (fs1, Option.none, 0)
  | ScreenshotSource.filePath p =>
    if fs.contains p then
      -- final_image_path := p, used directly without copying
      let search_url := get_google_lens_url resp
      -- finally: pil_temp_file_path is None; delete p only if it was the
      -- xclip temp file and still exists
      let fs2 := if is_temp_xclip_file && fs.contains p then fs.erase p else fs
      (fs2, search_url, 1)
    else
      -- invalid source: warning and early return; finally deletes nothing
      (fs, Option.none, 0)

/-- The relevant fields of the watchdog's `settings.json`
(tray_watchdog.py): the one-shot `tray_snip_token` written by the tray UI
(sniplens.py lines 219-220), the three-state `tray_status`
(0=Pause, 1=Tray Only, 2=Always On), the persisted deduplication hash
`last_detected_image`, and `last_litterbox_url`. -/
structure WdSettings where
  tray_snip_token : Option String
  tray_status : Int
  last_detected_image : String
  last_litterbox_url : Option String
deriving DecidableEq

/-- The local state of `clipboard_monitor_loop` (tray_watchdog.py lines
200-202) together with the settings file it reads and writes:
`last_snip_running` and the local variable `last_hash`, which is initialised
from settings before the loop and never reassigned inside it. -/
structure WdState where
  last_snip_running : Bool
  last_hash : String
  settings : WdSettings
deriving DecidableEq

/-- The observable outcome of one iteration of `clipboard_monitor_loop`:
the successor state, whether the clipboard was read
(`grab_clipboard_image_and_hash`), whether an upload POST was attempted, and
the URL given to `webbrowser.open_new_tab` (if any). -/
structure WdStepOut where
  state : WdState
  read_clipboard : Bool
  upload_attempted : Bool
  opened_url : Option String
deriving DecidableEq

/-- The upload block of `clipboard_monitor_loop` (tray_watchdog.py lines
244-265), reached with `do_upload` true: one POST to Litterbox; on status 200
the stripped body is stored as `last_litterbox_url` and the Lens URL is
opened (`do_open_lens = do_upload`); any other status, or a raised exception
(`resp = none`), only logs. The body is not validated beyond status 200. -/
def watchdog_upload (s : WdSettings) (resp : Option HttpResponse) :
    WdSettings × Option String :=
  match resp with
  | Option.none => (s, Option.none)
  | Option.some r =>
    if r.status == 200 then
      let url := pyStrip r.body
      ({ s with last_litterbox_url := Option.some url },
        Option.some (lens_url url))
    else
      (s, Option.none)

/-- One iteration of `clipboard_monitor_loop` (tray_watchdog.py lines
203-274). Per-iteration inputs: `now_running` from `snippingtool_running()`,
`clip` the clipboard hash from `grab_clipboard_image_and_hash()` (`none`
when no image / an exception; the pixel data is present exactly when the
hash is), and `resp` the HTTP response of the upload, if one is attempted.
Only a running-to-not-running transition opens the processing branch; inside
it the token is read and, when present, deleted from settings before the
new-image check (lines 213-220); the new-image check compares against the
stale local `last_hash` (line 222) while persisting `last_detected_image`
(line 224); `do_upload = tray_status == 2 or (tray_status == 1 and
is_tray_snip)` (line 227). -/
def clipboard_monitor_step (st : WdState) (now_running : Bool)
    (clip : Option String) (resp : Option HttpResponse) : WdStepOut :=
  if st.last_snip_running && !now_running then
    -- "[SnippingTool] Detected close. Checking clipboard..."
    let hash_val := clip
    let tray_snip_token := st.settings.tray_snip_token
    let is_tray_snip := tray_snip_token.isSome
    let settings1 :=
      if is_tray_snip then
        { st.settings with tray_snip_token := Option.none }
      else st.settings
    match hash_val with
    | Option.some h =>
      if h != st.last_hash then
        let settings2 := { settings1 with last_detected_image := h }
        let tray_status := settings2.tray_status
        let do_upload := tray_status == 2 || (tray_status == 1 && is_tray_snip)
        if do_upload then
          let up := watchdog_upload settings2 resp
          { state := { last_snip_running := now_running,
                       last_hash := st.last_hash, settings := up.1 },
            read_clipboard := true, upload_attempted := true,
            opened_url := up.2 }
        else
          { state := { last_snip_running := now_running,
                       last_hash := st.last_hash, settings := settings2 },
            read_clipboard := true, upload_attempted := false,
            opened_url := Option.none }
      else
        -- "[SnippingTool] No new image or duplicate."
        { state := { last_snip_running := now_running,
                     last_hash := st.last_hash, settings := settings1 },
          read_clipboard := true, upload_attempted := false,
          opened_url := Option.none }
    | Option.none =>
      { state := { last_snip_running := now_running,
                   last_hash := st.last_hash, settings := settings1 },
        read_clipboard := true, upload_attempted := false,
        opened_url := Option.none }
  else
    { state := { st with last_snip_running := now_running },
      read_clipboard := false, upload_attempted := false,
      opened_url := Option.none }

/-- Atomic operations on the settings-file token slot, as the two processes
actually perform them. `consumerRead` is the watchdog's
`settings = get_settings(); tray_snip_token = settings.get("tray_snip_token")`
(tray_watchdog.py lines 213-214); `consumerDelete` is its subsequent
`update_settings({}, delete_keys=["tray_snip_token"])` (line 220, executed
only when a token was observed); `uiWrite t` is the tray UI's
`update_settings({"tray_snip_token": token})` (sniplens.py line 220). Each
operation is one whole read-modify-write of the settings file; the watchdog's
consumption is the SEQUENCE of the first two, not a single operation. -/
inductive TokenOp
  | consumerRead
  | consumerDelete
  | uiWrite (t : String)
deriving DecidableEq

/-- State of the token race: the settings-file slot and the watchdog's local
`tray_snip_token` variable (what its evaluation observed). -/
structure TokenRace where
  slot : Option String
  observed : Option String
deriving DecidableEq

/-- Effect of one settings-file operation. `consumerDelete` removes the key
currently in the file whenever the consumer had observed a token (the guard
`if is_tray_snip:` in tray_watchdog.py lines 217-220). -/
def token_step (s : TokenRace) : TokenOp → TokenRace
  | TokenOp.consumerRead => { s with observed := s.slot }
  | TokenOp.consumerDelete =>
    if s.observed.isSome then { s with slot := Option.none } else s
  | TokenOp.uiWrite t => { s with slot := Option.some t }

/-- Run an interleaving of settings-file operations. -/
def token_run (s : TokenRace) (ops : List TokenOp) : TokenRace :=
  ops.foldl token_step s

/-- Modelled from the spec: "Search URL construction:
`<search-provider-base>?url=<url-encoded hosted file URL>`". Standard
percent-encoding of a URI component: unreserved characters
(letters, digits, `-`, `.`, `_`, `~`) pass through, every other character
becomes `%` followed by two uppercase hex digits. Stated only to compare the
spec's wording with the code's raw interpolation (`lens_url`). -/
def isUnreservedChar (c : Char) : Bool :=
  c.isAlphanum || c = '-' || c = '.' || c = '_' || c = '~'

/-- Uppercase hexadecimal digit for `n < 16`. -/
def hexDigitChar (n : Nat) : Char :=
  if n < 10 then Char.ofNat (48 + n) else Char.ofNat (55 + n)

/-- Percent-encode a single character (ASCII range, as URLs here are). -/
def percentEncodeChar (c : Char) : List Char :=
  if isUnreservedChar c then [c]
  else ['%', hexDigitChar (c.toNat / 16 % 16), hexDigitChar (c.toNat % 16)]

/-- Modelled from the spec: URL-encoding of a whole component. -/
def spec_urlencode (s : String) : String :=
  ⟨(s.data.map percentEncodeChar).flatten⟩

/-- Modelled from the spec: the search URL the spec sentence describes,
`<search-provider-base>?url=<url-encoded hosted file URL>`. -/
def spec_search_url (hosted : String) : String :=
  "https://lens.google.com/uploadbyurl?url=" ++ spec_urlencode hosted

/-- C2 counterexample: the claim asserts acceptance at exactly `elapsed = 0`
(no token, AlwaysOn): with the process last seen at `t = 5` and a fresh image
observed at `now = 5` (`elapsed = 0`), the engine rejects (line 427 uses the
strict comparison `0 < time_since_process_seen`), and the raw timing test on
`0` is false. -/
theorem timing_window_rejects_zero_elapsed :
    (monitor_clipboard_iter ⟨Option.none, 5, false, true⟩
        (ClipboardPoll.image (Option.some 1)) 5).2 = false
    ∧ should_process 0 = false := by
  refine ⟨?_, rfl⟩
  norm_num [monitor_clipboard_iter, should_process]
  split <;> rfl

/-- C2 (amended): with no token and monitoring active, a clipboard change
event is accepted exactly when `0 < elapsed ≤ T_timeout`; in particular it
is accepted at exactly `elapsed = T_timeout` but rejected at exactly
`elapsed = 0` and for every `elapsed > T_timeout`. -/
theorem timing_window_boundary (st : EngineState) (now : ℚ) (h : Option Int)
    (hp : st.is_paused = false)
    (hnew : (h != st.last_clipboard_hash) = true) :
    (monitor_clipboard_iter st (ClipboardPoll.image h) now).2 = true
      ↔ (0 < now - st.last_snip_process_seen_time
          ∧ now - st.last_snip_process_seen_time ≤ SNIP_PROCESS_TIMEOUT_SECONDS) := by
  simp [monitor_clipboard_iter, hp, hnew, should_process]

/-- Witness for the amended C2 at a concrete input: process seen at `0`,
image at `now = 3`, elapsed `3 ≤ 5`: accepted. -/
theorem timing_window_boundary_witness :
    (monitor_clipboard_iter ⟨Option.none, 0, false, true⟩
        (ClipboardPoll.image (Option.some 1)) 3).2 = true :=
  (timing_window_boundary ⟨Option.none, 0, false, true⟩ 3 (Option.some 1) rfl
      (by decide)).mpr (by norm_num [SNIP_PROCESS_TIMEOUT_SECONDS])

/-- C5: a clipboard-watcher iteration that finds no image, and one that hits a
clipboard-access error, behave identically: if monitoring is active they
clear only `last_clipboard_hash`, leave every other engine field unchanged,
and start no delivery. -/
theorem fingerprint_reset_on_empty_or_error (st : EngineState) (now : ℚ)
    (hp : st.is_paused = false) :
    monitor_clipboard_iter st ClipboardPoll.noImage now
      = monitor_clipboard_iter st ClipboardPoll.pollError now
    ∧ monitor_clipboard_iter st ClipboardPoll.noImage now
      = ({ last_clipboard_hash := Option.none,
           last_snip_process_seen_time := st.last_snip_process_seen_time,
           is_paused := st.is_paused,
           is_running := st.is_running }, false) := by
  obtain ⟨lch, tseen, pause, run⟩ := st
  simp only at hp
  subst hp
  cases lch <;> simp [monitor_clipboard_iter]

/-- Witness for C5 at a concrete engine state with a non-empty fingerprint. -/
theorem fingerprint_reset_on_empty_or_error_witness :
    monitor_clipboard_iter ⟨Option.some 7, 2, false, true⟩ ClipboardPoll.noImage 9
      = monitor_clipboard_iter ⟨Option.some 7, 2, false, true⟩ ClipboardPoll.pollError 9
    ∧ monitor_clipboard_iter ⟨Option.some 7, 2, false, true⟩ ClipboardPoll.noImage 9
      = ({ last_clipboard_hash := Option.none,
           last_snip_process_seen_time := 2,
           is_paused := false,
           is_running := true }, false) :=
  fingerprint_reset_on_empty_or_error ⟨Option.some 7, 2, false, true⟩ 9 rfl

/-- C1: mode gating of the watchdog's acceptance decision
(tray_watchdog.py line 227). Every policy evaluation there happens at a
snipping-tool running-to-not-running transition, i.e. is process-correlated
by construction; at such an evaluation of a new image: in `AlwaysOn`
(`tray_status = 2`) the image is accepted; in `TrayOnly` (`tray_status = 1`)
it is accepted exactly when a trigger token was present (a process-correlated
but token-absent change is rejected); in `Paused` (`tray_status = 0`) it is
never accepted. -/
theorem mode_gating (st : WdState) (h : String) (resp : Option HttpResponse)
    (hrun : st.last_snip_running = true)
    (hnew : (h != st.last_hash) = true) :
    (st.settings.tray_status = 2 →
      (clipboard_monitor_step st false (Option.some h) resp).upload_attempted = true)
    ∧ (st.settings.tray_status = 1 →
      ((clipboard_monitor_step st false (Option.some h) resp).upload_attempted = true
        ↔ st.settings.tray_snip_token.isSome = true))
    ∧ (st.settings.tray_status = 0 →
      (clipboard_monitor_step st false (Option.some h) resp).upload_attempted = false) := by
  by_cases htok : st.settings.tray_snip_token.isSome = true <;>
    refine ⟨fun hm => ?_, fun hm => ?_, fun hm => ?_⟩ <;>
      simp [clipboard_monitor_step, hrun, hnew, htok, hm]

/-- Witness for C1: a TrayOnly watchdog state holding a live token; the
evaluated new image is accepted exactly because the token is present. -/
def wdTrayOnlyTok : WdState :=
  { last_snip_running := true, last_hash := "",
    settings := { tray_snip_token := Option.some "t", tray_status := 1,
                  last_detected_image := "", last_litterbox_url := Option.none } }

/-- Witness applying `mode_gating` at the concrete TrayOnly state. -/
theorem mode_gating_witness :
    (clipboard_monitor_step wdTrayOnlyTok false (Option.some "abc")
        Option.none).upload_attempted = true
      ↔ wdTrayOnlyTok.settings.tray_snip_token.isSome = true :=
  (mode_gating wdTrayOnlyTok "abc" Option.none rfl (by decide)).2.1 rfl

/-- C9: the watchdog's clipboard loop is edge-triggered. In any iteration
without a running-to-not-running transition of the snipping tool, the
clipboard is not read, no upload is attempted, no URL is opened, and the
state changes only by recording the current running flag — whatever the
clipboard or network would have returned. -/
theorem watchdog_edge_triggered (st : WdState) (now_running : Bool)
    (clip : Option String) (resp : Option HttpResponse)
    (hno : (st.last_snip_running && !now_running) = false) :
    (clipboard_monitor_step st now_running clip resp).read_clipboard = false
    ∧ (clipboard_monitor_step st now_running clip resp).upload_attempted = false
    ∧ (clipboard_monitor_step st now_running clip resp).opened_url = Option.none
    ∧ (clipboard_monitor_step st now_running clip resp).state
        = { st with last_snip_running := now_running } := by
  simp [clipboard_monitor_step, hno]

/-- Witness for C9: tool still running (no transition), a fresh clipboard
hash and a 200 response available — still nothing is read or opened. -/
theorem watchdog_edge_triggered_witness :
    (clipboard_monitor_step wdTrayOnlyTok true (Option.some "abc")
        (Option.some ⟨200, "x"⟩)).read_clipboard = false
    ∧ (clipboard_monitor_step wdTrayOnlyTok true (Option.some "abc")
        (Option.some ⟨200, "x"⟩)).upload_attempted = false
    ∧ (clipboard_monitor_step wdTrayOnlyTok true (Option.some "abc")
        (Option.some ⟨200, "x"⟩)).opened_url = Option.none
    ∧ (clipboard_monitor_step wdTrayOnlyTok true (Option.some "abc")
        (Option.some ⟨200, "x"⟩)).state
        = { wdTrayOnlyTok with last_snip_running := true } :=
  watchdog_edge_triggered wdTrayOnlyTok true (Option.some "abc")
    (Option.some ⟨200, "x"⟩) (by decide)

/-- C10: on a detected snipping-tool close with a live trigger token, the
token is deleted from settings before the new-image check, so even when the
clipboard holds no image, or its hash equals the previously recorded one,
the token is consumed while nothing is accepted, uploaded or opened. -/
theorem token_consumed_without_acceptance (st : WdState) (t : String)
    (clip : Option String) (resp : Option HttpResponse)
    (hrun : st.last_snip_running = true)
    (htok : st.settings.tray_snip_token = Option.some t)
    (hnoimg : clip = Option.none ∨ clip = Option.some st.last_hash) :
    (clipboard_monitor_step st false clip resp).state.settings.tray_snip_token
        = Option.none
    ∧ (clipboard_monitor_step st false clip resp).upload_attempted = false
    ∧ (clipboard_monitor_step st false clip resp).opened_url = Option.none := by
  rcases hnoimg with hc | hc <;> subst hc <;>
    simp [clipboard_monitor_step, hrun, htok]

/-- Witness for C10: live token, tool closes, clipboard empty — the token is
gone and nothing was uploaded or opened. -/
theorem token_consumed_without_acceptance_witness :
    (clipboard_monitor_step wdTrayOnlyTok false Option.none
        Option.none).state.settings.tray_snip_token = Option.none
    ∧ (clipboard_monitor_step wdTrayOnlyTok false Option.none
        Option.none).upload_attempted = false
    ∧ (clipboard_monitor_step wdTrayOnlyTok false Option.none
        Option.none).opened_url = Option.none :=
  token_consumed_without_acceptance wdTrayOnlyTok "t" Option.none Option.none
    rfl rfl (Or.inl rfl)

/-- An AlwaysOn watchdog start state: tool observed running, no token, no
fingerprint recorded yet. -/
def wdDemoState : WdState :=
  { last_snip_running := true, last_hash := "",
    settings := { tray_snip_token := Option.none, tray_status := 2,
                  last_detected_image := "", last_litterbox_url := Option.none } }

/-- C4 at its failing input: the watchdog evaluates fingerprint "abc", uploads
it and persists it as `last_detected_image`; after the tool runs and closes
again with the clipboard unchanged, the very same fingerprint is offered to
the policy again and re-uploaded, because the loop's local `last_hash`
(tray_watchdog.py line 222) is never refreshed after the settings write of
line 224. -/
theorem watchdog_reoffers_same_fingerprint :
    ((clipboard_monitor_step wdDemoState false (Option.some "abc")
        Option.none).upload_attempted = true)
    ∧ ((clipboard_monitor_step wdDemoState false (Option.some "abc")
        Option.none).state.settings.last_detected_image = "abc")
    ∧ ((clipboard_monitor_step
          (clipboard_monitor_step
            (clipboard_monitor_step wdDemoState false (Option.some "abc")
              Option.none).state
            true Option.none Option.none).state
          false (Option.some "abc") Option.none).upload_attempted = true) := by
  decide

/-- C3 at its failing interleaving: the watchdog's token consumption is a
settings read (`get_settings`, tray_watchdog.py lines 213-214) followed by a
separate settings delete (`update_settings` with `delete_keys`, line 220),
not one indivisible read-and-clear. Starting from a single live token "t1",
the interleaving [watchdog reads; UI writes fresh token "t2"; watchdog
deletes] ends with the slot empty although the evaluation observed "t1":
the live token "t2" was destroyed without any evaluation ever observing it,
which an atomic swap would make impossible. -/
theorem token_check_then_delete_race :
    token_run { slot := Option.some "t1", observed := Option.none }
        [TokenOp.consumerRead, TokenOp.uiWrite "t2", TokenOp.consumerDelete]
      = { slot := Option.none, observed := Option.some "t1" } := by
  decide

/-- C6 counterexample: a watchdog delivery attempt with HTTP status 200 and a
body that is not a hosted-file URL at all is still reported successful (a
search URL is produced and opened) — the watchdog validates only the status,
never the body shape (tray_watchdog.py lines 250-259). -/
theorem watchdog_upload_ignores_body_shape :
    ((watchdog_upload
        { tray_snip_token := Option.none, tray_status := 2,
          last_detected_image := "abc", last_litterbox_url := Option.none }
        (Option.some ⟨200, "Database error"⟩)).2).isSome = true
    ∧ strStartsWith (pyStrip "Database error") "https://" = false := by
  decide

/-- C6 (amended): in the main engine, an upload is reported successful and a
search URL produced exactly when the response has status 200 and its stripped
body starts with the expected Catbox file-host URL; in the Windows watchdog
path, success requires only status 200 and the body shape is not validated;
a raised exception (timeout or network error) is always a failure; and no
path retries — at most one upload attempt is made per accepted image. -/
theorem upload_outcome_validation :
    (∀ r : HttpResponse, (get_google_lens_url (Option.some r)).isSome = true
      ↔ (r.status = 200
          ∧ strStartsWith (pyStrip r.body) "https://files.catbox.moe/" = true))
    ∧ get_google_lens_url Option.none = Option.none
    ∧ (∀ (s : WdSettings) (r : HttpResponse),
        ((watchdog_upload s (Option.some r)).2).isSome = true ↔ r.status = 200)
    ∧ (∀ s : WdSettings, (watchdog_upload s Option.none).2 = Option.none)
    ∧ (∀ (src : ScreenshotSource) (itx : Bool) (tempName : String)
        (save_ok : Bool) (resp : Option HttpResponse) (fs : List String),
        (process_screenshot src itx tempName save_ok resp fs).2.2 ≤ 1) := by
  refine ⟨fun r => ?_, rfl, fun s r => ?_, fun s => rfl, fun src itx tn so resp fs => ?_⟩
  · simp only [get_google_lens_url]
    split
    · rename_i hraise
      simp only [Bool.and_eq_true, decide_eq_true_eq] at hraise
      simp only [Option.isSome_none, Bool.false_eq_true, false_iff, not_and]
      intro h200
      omega
    · simp [Bool.and_eq_true, beq_iff_eq]
  · simp only [watchdog_upload]
    split <;> simp_all
  · cases src <;> simp only [process_screenshot] <;> split <;> simp

/-- C7: temporary-artifact lifecycle of `process_screenshot`. When an
in-memory image is staged to a fresh temporary file, that file no longer
exists when the invocation returns, whatever the upload outcome `resp`
(success, failure status, malformed body, or timeout); and an invocation
whose input is a directly supplied file path not created by the pipeline
(`is_temp_xclip_file = false`) leaves the filesystem untouched. -/
theorem temp_artifact_lifecycle (bytes : List Nat) (p tempName : String)
    (itx : Bool) (resp : Option HttpResponse) (fs : List String)
    (hfresh : tempName ∉ fs) :
    tempName ∉ (process_screenshot (ScreenshotSource.pilImage bytes) itx
        tempName true resp fs).1
    ∧ (process_screenshot (ScreenshotSource.filePath p) false tempName true
        resp fs).1 = fs := by
  constructor
  · simp [process_screenshot, List.erase_cons_head, hfresh]
  · simp only [process_screenshot]
    split <;> simp

/-- Witness for C7 at concrete inputs: the staged temp file "tmpXYZ" is gone
afterwards, and the directly supplied "shot.png" survives. -/
theorem temp_artifact_lifecycle_witness :
    "tmpXYZ" ∉ (process_screenshot (ScreenshotSource.pilImage [1, 2]) false
        "tmpXYZ" true Option.none ["shot.png"]).1
    ∧ (process_screenshot (ScreenshotSource.filePath "shot.png") false "tmpXYZ"
        true Option.none ["shot.png"]).1 = ["shot.png"] :=
  temp_artifact_lifecycle [1, 2] "shot.png" "tmpXYZ" false Option.none
    ["shot.png"] (by decide)

/-- C8 counterexample: for the successfully uploaded hosted URL
`https://files.catbox.moe/x.png`, the URL the code opens embeds it verbatim,
which differs from the spec's `<base>?url=<url-encoded hosted URL>` (the
encoding would at least escape `:` and `/`). -/
theorem search_url_not_percent_encoded :
    get_google_lens_url (Option.some ⟨200, "https://files.catbox.moe/x.png"⟩)
      = Option.some
          "https://lens.google.com/uploadbyurl?url=https://files.catbox.moe/x.png"
    ∧ "https://lens.google.com/uploadbyurl?url=https://files.catbox.moe/x.png"
      ≠ spec_search_url "https://files.catbox.moe/x.png" := by
  decide

/-- C8 (amended): for every successful upload returning hosted URL `u`
(status 200, stripped body `u` of the expected shape), the URL requested to
be opened is the search-provider base followed by `?url=` followed by `u`
verbatim — no URL encoding is applied — in both delivery paths. -/
theorem search_url_raw_interpolation (r : HttpResponse) (s : WdSettings)
    (h200 : r.status = 200)
    (hbody : strStartsWith (pyStrip r.body) "https://files.catbox.moe/" = true) :
    get_google_lens_url (Option.some r)
      = Option.some ("https://lens.google.com/uploadbyurl?url=" ++ pyStrip r.body)
    ∧ (watchdog_upload s (Option.some r)).2
      = Option.some ("https://lens.google.com/uploadbyurl?url=" ++ pyStrip r.body) := by
  constructor
  · simp [get_google_lens_url, h200, hbody, lens_url]
  · simp [watchdog_upload, h200, lens_url]

/-- Witness applying `search_url_raw_interpolation` to a concrete 200
response carrying a Catbox URL. -/
theorem search_url_raw_interpolation_witness :
    get_google_lens_url (Option.some ⟨200, "https://files.catbox.moe/a.png"⟩)
      = Option.some ("https://lens.google.com/uploadbyurl?url="
          ++ pyStrip "https://files.catbox.moe/a.png")
    ∧ (watchdog_upload
        { tray_snip_token := Option.none, tray_status := 2,
          last_detected_image := "", last_litterbox_url := Option.none }
        (Option.some ⟨200, "https://files.catbox.moe/a.png"⟩)).2
      = Option.some ("https://lens.google.com/uploadbyurl?url="
          ++ pyStrip "https://files.catbox.moe/a.png") :=
  search_url_raw_interpolation ⟨200, "https://files.catbox.moe/a.png"⟩
    { tray_snip_token := Option.none, tray_status := 2,
      last_detected_image := "", last_litterbox_url := Option.none }
    rfl (by decide)
